import Mathlib

/-!
Verification of the async-bridging layer of `aiosqlite3` against its
specification, via a shallow embedding of `aiosqlite3/connection.py`.

Modelling conventions.

The blocking driver (`sqlite3`) is opaque: handles, raw cursors and
parameters are abstract tokens, and a `Driver` record specifies the
outcome of each blocking call.  Worker-pool dispatch
(`loop.run_in_executor`) is modelled by threading an explicit submission
log: every call that reaches the pool appends one `Submission` record.
A suspension handle (asyncio future) is modelled by its eventual
outcome, `Except DriverErr α`.  Coroutine methods (`_connect`, `close`)
are modelled by their awaited semantics; plain methods (`execute`,
`executemany`, `cursor`) are modelled by their call-time semantics,
which is where Python runs their whole body.  `executescript` contains
a bare `yield from`, so Python compiles it to a generator function:
calling it builds a generator object and runs none of the body; its
call-time and awaited semantics are therefore modelled separately.
Logging calls guarded by `self._echo` are observational only and are
omitted.  `sqlite3.Connection` objects are always truthy, so the
source's truthiness tests `if self._conn:` / `if not self._conn:` are
modelled as tests against `none`.
-/

namespace Aiosqlite3

/-- Opaque underlying blocking sqlite3 connection handle (always a truthy
Python object). -/
abbrev Handle := Nat

/-- Opaque raw blocking cursor returned by the driver. -/
abbrev RawCursor := Nat

/-- Opaque SQL statement parameter. -/
abbrev Param := String

/-- Opaque payload of a failure raised by a blocking driver call; it is
captured by the future and re-raised verbatim when the future is awaited. -/
abbrev DriverErr := String

/-- Extra driver options forwarded by `**kwargs`. -/
abbrev Kwargs := List (String × String)

/-- Python-level exceptions that the bridging layer can surface to the
caller: `ValueError` (raised by `__init__`), `AttributeError` (the
null-handle usage fault from evaluating `self._conn.<name>` while
`self._conn` is `None`), and a driver failure re-raised from a future. -/
inductive PyErr where
  | valueError (msg : String)
  | attributeError (msg : String)
  | driver (e : DriverErr)
  deriving DecidableEq, Repr

/-- One bound blocking operation submitted to the worker pool by
`Connection._execute` (the record of one `run_in_executor` call,
together with the arguments the `functools` binding captured). -/
inductive Submission where
  | connect (database : String) (timeout : Nat) (isolation_level : String)
      (check_same_thread : Bool) (kwargs : Kwargs)
  | close (h : Handle)
  | execute (h : Handle) (sql : String) (params : List Param)
  | executemany (h : Handle) (sql : String) (seq : List (List Param))
  | executescript (h : Handle) (sql_script : String)
  | cursor (h : Handle)
  | delegated (h : Handle) (method : String)
  deriving DecidableEq, Repr

/-- The Connection Proxy: the fields assigned by `Connection.__init__`
(`connection.py` lines 59-67).  `_conn` is the nullable underlying
handle reference. -/
structure Connection where
  _database : String
  _loop : Nat
  _executor : Option Nat
  _timeout : Nat
  _echo : Bool
  _check_same_thread : Bool
  _isolation_level : String
  _kwargs : Kwargs
  _conn : Option Handle
  deriving DecidableEq, Repr

/-- The opaque blocking driver: the outcome of each blocking call the
bridging layer can submit, as a function of the captured arguments. -/
structure Driver where
  connectRes : String → Nat → String → Bool → Kwargs → Except DriverErr Handle
  closeRes : Handle → Except DriverErr Unit
  executeRes : Handle → String → List Param → Except DriverErr RawCursor
  executemanyRes : Handle → String → List (List Param) → Except DriverErr RawCursor
  executescriptRes : Handle → String → Except DriverErr RawCursor
  cursorRes : Handle → Except DriverErr RawCursor

/-- A fully bound, argument-free unit of blocking work, as produced by the
`functools` binding in `Connection._execute`: the submission record it
leaves in the pool log, and its eventual outcome under the driver. -/
structure BoundOp (α : Type) where
  sub : Submission
  run : Except DriverErr α

/-- Embedding of `Connection._execute` (lines 82-88): binds the function,
hands it to the worker pool via `loop.run_in_executor`, and returns the
future immediately.  The pool submission is recorded in the log; the
returned future is the operation's eventual outcome. -/
def Connection._execute (op : BoundOp α) (log : List Submission) :
    Except DriverErr α × List Submission :=
  (op.run, log ++ [op.sub])

/-- Modelled from the spec: the Cursor Proxy class from `cursor.py`, which
is not under `src/`.  Per the spec, it is "constructed as
`CursorProxy(rawCursor, parentConnection, diagnosticsFlag)`", matching the
construction call `Cursor(cursor, self, self._echo)` in
`Connection._create_cursor`. -/
structure Cursor where
  impl : RawCursor
  connection : Connection
  echo : Bool
  deriving DecidableEq, Repr

/-- Embedding of `Connection._create_cursor` (lines 177-181): wraps a raw
cursor as `Cursor(cursor, self, self._echo)`. -/
def Connection._create_cursor (c : Connection) (cursor : RawCursor) : Cursor :=
  ⟨cursor, c, c._echo⟩

/-- The Dual-Mode Result Wrapper class `_LazyloadContextManager` from
`utils.py` (its construction call in `connection.py` line 187 passes the
two fields; its class body is not under `src/`, so its consumption
semantics are modelled from the spec further below).  The first field is
whatever Python value the caller passed for the `coro` parameter — its
type `κ` records whether it is actually a pending future or some other,
non-awaitable value. -/
structure _LazyloadContextManager (κ : Type) (α : Type) (β : Type) where
  coro : κ
  trans : α → β

/-- Embedding of `Connection._create_context_cursor` (lines 183-187):
builds `_LazyloadContextManager(coro, self._create_cursor)`. -/
def Connection._create_context_cursor (c : Connection) (coro : κ) :
    _LazyloadContextManager κ RawCursor Cursor :=
  ⟨coro, c._create_cursor⟩

/-- The wrapper produced by `execute` / `executemany` / `cursor`: its
`coro` field is a pending future resolving to a raw cursor. -/
abbrev CursorContext :=
  _LazyloadContextManager (Except DriverErr RawCursor) RawCursor Cursor

/-- The wrapper produced by awaiting `executescript`: its `coro` field is
an already-resolved raw cursor, not a future. -/
abbrev ResolvedCursorContext :=
  _LazyloadContextManager RawCursor RawCursor Cursor

/-- Embedding of `Connection.closed` (lines 126-133): `if self._conn:
return False` / `return True`.  Underlying handles are truthy objects, so
this is exactly a null test on the handle reference. -/
def Connection.closed (c : Connection) : Bool :=
  match c._conn with
  | some _ => false
  | none => true

/-- Embedding of `Connection.__init__` (lines 43-67): raises `ValueError`
when `check_same_thread` is not false, otherwise stores the fields with
`self._conn = None`.  `__init__` performs no pool submission, so the
ambient pool log is threaded through unchanged. -/
def Connection.init (database : String) (loop : Nat) (executor : Option Nat)
    (timeout : Nat) (echo : Bool) (check_same_thread : Bool)
    (isolation_level : String) (kwargs : Kwargs) (log : List Submission) :
    Except PyErr Connection × List Submission :=
  if check_same_thread then
    (Except.error (PyErr.valueError "check_same_thread not is False"), log)
  else
    (Except.ok ⟨database, loop, executor, timeout, echo, check_same_thread,
      isolation_level, kwargs, none⟩, log)

/-- Embedding of the awaited semantics of `Connection._connect`
(lines 90-105): binds `sqlite3.connect` with the database, timeout,
isolation level, `check_same_thread` and the extra options, submits it via
`_execute`, awaits the future, and on success assigns `self._conn`.  On
failure the `yield from` re-raises before the assignment, leaving `_conn`
unchanged.  The connection value after the call is returned alongside the
outcome. -/
def Connection._connect (c : Connection) (d : Driver) (log : List Submission) :
    (Except PyErr Unit × Connection) × List Submission :=
  let op : BoundOp Handle :=
    ⟨Submission.connect c._database c._timeout c._isolation_level
        c._check_same_thread c._kwargs,
      d.connectRes c._database c._timeout c._isolation_level
        c._check_same_thread c._kwargs⟩
  let r := Connection._execute op log
  match r.1 with
  | Except.error e => ((Except.error (PyErr.driver e), c), r.2)
  | Except.ok h => ((Except.ok (), { c with _conn := some h }), r.2)

/-- Embedding of the awaited semantics of `Connection.close`
(lines 196-207): `if not self._conn: return` is an immediate no-op;
otherwise `self._conn.close` is bound and submitted, the future awaited,
and only after a successful await is `self._conn = None` executed — a
failure re-raises from the `yield from` and skips the assignment. -/
def Connection.close (c : Connection) (d : Driver) (log : List Submission) :
    (Except PyErr Unit × Connection) × List Submission :=
  match c._conn with
  | none => ((Except.ok (), c), log)
  | some h =>
      let r := Connection._execute (⟨Submission.close h, d.closeRes h⟩ : BoundOp Unit) log
      match r.1 with
      | Except.error e => ((Except.error (PyErr.driver e), c), r.2)
      | Except.ok _ => ((Except.ok (), { c with _conn := none }), r.2)

/-- Embedding of `Connection.execute` (lines 209-226): `parameters`
defaults to `[]` when omitted (`None`); evaluating `self._conn.execute`
while `self._conn` is `None` raises `AttributeError` before any pool
submission; otherwise the bound statement is submitted and the future is
wrapped by `_create_context_cursor` and returned without suspending.  The
connection value after the call is returned alongside the result. -/
def Connection.execute (c : Connection) (d : Driver) (sql : String)
    (parameters : Option (List Param)) (log : List Submission) :
    (Except PyErr CursorContext × Connection) × List Submission :=
  let params := parameters.getD []
  match c._conn with
  | none =>
      ((Except.error (PyErr.attributeError "NoneType object has no attribute execute"), c),
        log)
  | some h =>
      let r := Connection._execute
        (⟨Submission.execute h sql params, d.executeRes h sql params⟩ : BoundOp RawCursor) log
      ((Except.ok (c._create_context_cursor r.1), c), r.2)

/-- Embedding of `Connection.executemany` (lines 228-247): `parameters`
is a required argument; otherwise the same shape as `execute`. -/
def Connection.executemany (c : Connection) (d : Driver) (sql : String)
    (parameters : List (List Param)) (log : List Submission) :
    (Except PyErr CursorContext × Connection) × List Submission :=
  match c._conn with
  | none =>
      ((Except.error (PyErr.attributeError "NoneType object has no attribute executemany"), c),
        log)
  | some h =>
      let r := Connection._execute
        (⟨Submission.executemany h sql parameters, d.executemanyRes h sql parameters⟩ :
          BoundOp RawCursor) log
      ((Except.ok (c._create_context_cursor r.1), c), r.2)

/-- Embedding of `Connection.cursor` (lines 189-194): binds
`self._conn.cursor` (null-handle fault when `self._conn` is `None`),
submits it, and wraps the future via `_create_context_cursor`. -/
def Connection.cursor (c : Connection) (d : Driver) (log : List Submission) :
    (Except PyErr CursorContext × Connection) × List Submission :=
  match c._conn with
  | none =>
      ((Except.error (PyErr.attributeError "NoneType object has no attribute cursor"), c),
        log)
  | some h =>
      let r := Connection._execute
        (⟨Submission.cursor h, d.cursorRes h⟩ : BoundOp RawCursor) log
      ((Except.ok (c._create_context_cursor r.1), c), r.2)

/-- The generator object produced by calling `Connection.executescript`
(lines 249-265).  The body contains a bare `yield from`, so Python
compiles `executescript` to a generator function: the call merely builds
this object, capturing `self` and `sql_script`, and executes none of the
body — in particular it performs no pool submission and raises nothing. -/
structure ExecutescriptGen where
  self : Connection
  sql_script : String
  deriving DecidableEq, Repr

/-- Embedding of the call-time semantics of `Connection.executescript`
(lines 249-265): building the generator object.  The connection value
after the call is returned alongside the generator. -/
def Connection.executescript (c : Connection) (sql_script : String)
    (log : List Submission) :
    (ExecutescriptGen × Connection) × List Submission :=
  ((⟨c, sql_script⟩, c), log)

/-- Embedding of the awaited semantics of the `executescript` generator:
only now does the body run — `self._conn.executescript` is bound
(null-handle fault when `self._conn` is `None`), submitted, the future is
awaited by the `yield from`, and the RESOLVED raw cursor (not a future) is
passed to `_create_context_cursor`. -/
def ExecutescriptGen.awaited (g : ExecutescriptGen) (d : Driver)
    (log : List Submission) :
    (Except PyErr ResolvedCursorContext × Connection) × List Submission :=
  match g.self._conn with
  | none =>
      ((Except.error
          (PyErr.attributeError "NoneType object has no attribute executescript"),
        g.self), log)
  | some h =>
      let r := Connection._execute
        (⟨Submission.executescript h g.sql_script,
            d.executescriptRes h g.sql_script⟩ : BoundOp RawCursor) log
      match r.1 with
      | Except.error e => ((Except.error (PyErr.driver e), g.self), r.2)
      | Except.ok rc =>
          ((Except.ok (g.self._create_context_cursor rc), g.self), r.2)

/-- Modelled from the spec: the forwarding methods synthesized by
`delegate_to_executor` in `utils.py` (not under `src/`) for `commit`,
`rollback`, `create_function`, etc.  Per the spec, calling `owner.name()`
is equivalent to `Dispatcher.submit(owner.pool, bind(owner.subobject.name))`,
and the binding evaluates `owner.subobject.name` in the caller's context,
so a `None` sub-object raises the null-handle `AttributeError`
synchronously, before any dispatch.  `run` is the outcome of the bound
driver call. -/
def Connection.delegated (c : Connection) (method : String)
    (run : Except DriverErr Unit) (log : List Submission) :
    (Except PyErr (Except DriverErr Unit) × Connection) × List Submission :=
  match c._conn with
  | none =>
      ((Except.error
          (PyErr.attributeError ("NoneType object has no attribute " ++ method)), c),
        log)
  | some h =>
      let r := Connection._execute
        (⟨Submission.delegated h method, run⟩ : BoundOp Unit) log
      ((Except.ok r.1, c), r.2)

/-- Modelled from the spec: suspend-mode consumption of a Dual-Mode Result
Wrapper whose `coro` field is a pending future ("the caller suspends on
the wrapper; it resolves the underlying handle, applies the finalizing
transform if present, and yields the transformed value (or propagates the
underlying failure, untransformed)"). -/
def awaitWrapper (w : _LazyloadContextManager (Except DriverErr α) α β) :
    Except PyErr β :=
  match w.coro with
  | Except.error e => Except.error (PyErr.driver e)
  | Except.ok a => Except.ok (w.trans a)

/-- Modelled from the spec: scoped-mode entry of a Dual-Mode Result
Wrapper ("scope entry performs exactly the suspend-mode resolution and
yields the same transformed value as the scope's bound resource"),
written out from the scoped-mode description. -/
def enterWrapper (w : _LazyloadContextManager (Except DriverErr α) α β) :
    Except PyErr β :=
  match w.coro with
  | Except.error e => Except.error (PyErr.driver e)
  | Except.ok a => Except.ok (w.trans a)

/-- Modelled from the spec: the single-resolution state of a Dual-Mode
Result Wrapper ("may be consumed exactly once"; "consuming a wrapper
through one mode precludes re-consuming it through the other"). -/
inductive ConsumeState where
  | fresh
  | consumedAwait
  | consumedScope
  deriving DecidableEq, Repr

/-- Modelled from the spec: consuming a wrapper by direct suspension,
tracking the single-resolution state.  Re-consumption is forbidden. -/
def consumeByAwait (w : _LazyloadContextManager (Except DriverErr α) α β) :
    ConsumeState → Except PyErr β × ConsumeState
  | ConsumeState.fresh => (awaitWrapper w, ConsumeState.consumedAwait)
  | st => (Except.error (PyErr.valueError "wrapper already consumed"), st)

/-- Modelled from the spec: consuming a wrapper by scope entry, tracking
the single-resolution state.  Re-consumption is forbidden. -/
def consumeByScope (w : _LazyloadContextManager (Except DriverErr α) α β) :
    ConsumeState → Except PyErr β × ConsumeState
  | ConsumeState.fresh => (enterWrapper w, ConsumeState.consumedScope)
  | st => (Except.error (PyErr.valueError "wrapper already consumed"), st)

/-- Modelled from the spec: a full scoped-mode use of a wrapper — entry
resolves the wrapper, the scope body runs on the produced resource, and
scope exit invokes the release operation (closing the produced Cursor
Proxy) on every exit path, including when the body raises.  The second
component counts release invocations; when entry itself fails no resource
was produced and nothing is released. -/
def scopedRun (w : _LazyloadContextManager (Except DriverErr α) α β)
    (body : β → Except PyErr γ) : Except PyErr γ × Nat :=
  match enterWrapper w with
  | Except.error e => (Except.error e, 0)
  | Except.ok res =>
      match body res with
      | Except.error e => (Except.error e, 1)
      | Except.ok v => (Except.ok v, 1)

/-- One observable driver outcome in a connection's lifecycle: the result
of the blocking open call made by `_connect`, or of the blocking close
call made by `close`. -/
inductive Event where
  | connectOk (h : Handle)
  | connectFail
  | closeOk
  | closeFail
  deriving DecidableEq, Repr

/-- The effect of one lifecycle event on the connection state, read off
from `_connect` (success assigns `self._conn`, failure skips the
assignment) and `close` (success executes `self._conn = None`, failure
skips it). -/
def stepConn (c : Connection) : Event → Connection
  | Event.connectOk h => { c with _conn := some h }
  | Event.connectFail => c
  | Event.closeOk => { c with _conn := none }
  | Event.closeFail => c

/-- The connection state after a sequence of lifecycle events. -/
def runTrace (c : Connection) (t : List Event) : Connection :=
  t.foldl stepConn c

/-- The specification's view of `closed` along a trace: a successful
connect makes it false, a completed close makes it true, and failed
operations leave it unchanged. -/
def closedSpecStep (b : Bool) : Event → Bool
  | Event.connectOk _ => false
  | Event.connectFail => b
  | Event.closeOk => true
  | Event.closeFail => b

/-- Whether, per the specification, no successful connect has occurred
since construction or since the last completed close. -/
def closedSpec (t : List Event) : Bool :=
  t.foldl closedSpecStep true

/-- The Connection Proxy as constructed by a successful `__init__` with
`check_same_thread=False`: all fields stored, `_conn = None`. -/
def initConn (database : String) (loop : Nat) (executor : Option Nat)
    (timeout : Nat) (echo : Bool) (isolation_level : String)
    (kwargs : Kwargs) : Connection :=
  ⟨database, loop, executor, timeout, echo, false, isolation_level, kwargs, none⟩

/-- A sample open connection: handle `1` live. -/
def cOpen : Connection := ⟨"a.db", 0, none, 5, false, false, "", [], some 1⟩

/-- A sample closed/unconnected connection: handle reference null. -/
def cClosed : Connection := ⟨"a.db", 0, none, 5, false, false, "", [], none⟩

/-- A sample driver on which every blocking call succeeds. -/
def dSample : Driver :=
  ⟨fun _ _ _ _ _ => Except.ok 1,
    fun _ => Except.ok (),
    fun _ _ _ => Except.ok 11,
    fun _ _ _ => Except.ok 12,
    fun _ _ => Except.ok 13,
    fun _ => Except.ok 14⟩

/-- A sample driver whose blocking close call raises. -/
def dBadClose : Driver :=
  ⟨fun _ _ _ _ _ => Except.ok 1,
    fun _ => Except.error "close failed",
    fun _ _ _ => Except.ok 11,
    fun _ _ _ => Except.ok 12,
    fun _ _ => Except.ok 13,
    fun _ => Except.ok 14⟩

/-- A sample wrapper over a successfully resolved raw cursor. -/
def wSample : CursorContext :=
  cOpen._create_context_cursor (Except.ok 11)

/-- A sample scope body that raises. -/
def bodyRaise : Cursor → Except PyErr Nat :=
  fun _ => Except.error (PyErr.valueError "boom")

/-- The `closed` property reads exactly the nullity of the handle
reference. -/
lemma closed_eq_none_iff (c : Connection) :
    Connection.closed c = true ↔ c._conn = none := by
  cases h : c._conn <;> simp [Connection.closed, h]

/-- One lifecycle step changes `closed` exactly as the specification's
step function says. -/
lemma closed_stepConn (c : Connection) (e : Event) :
    Connection.closed (stepConn c e) = closedSpecStep (Connection.closed c) e := by
  cases e <;> rfl

/-- Along any trace, `closed` is the fold of the specification's step
function from the initial `closed` value. -/
lemma runTrace_closed (t : List Event) : ∀ c : Connection,
    Connection.closed (runTrace c t)
      = List.foldl closedSpecStep (Connection.closed c) t := by
  induction t with
  | nil => intro c; rfl
  | cons e t ih =>
      intro c
      calc Connection.closed (runTrace c (e :: t))
          = Connection.closed (runTrace (stepConn c e) t) := rfl
        _ = List.foldl closedSpecStep (Connection.closed (stepConn c e)) t :=
            ih (stepConn c e)
        _ = List.foldl closedSpecStep (closedSpecStep (Connection.closed c) e) t := by
            rw [closed_stepConn]
        _ = List.foldl closedSpecStep (Connection.closed c) (e :: t) := rfl

/-- A successful dispatched open, as executed by `_connect`, is the
`connectOk` lifecycle step. -/
lemma connect_ok_matches_step (c : Connection) (d : Driver) (log : List Submission)
    (h : Handle)
    (hd : d.connectRes c._database c._timeout c._isolation_level
        c._check_same_thread c._kwargs = Except.ok h) :
    ((c._connect d log).1).2 = stepConn c (Event.connectOk h) := by
  simp [Connection._connect, Connection._execute, hd, stepConn]

/-- A failed dispatched open, as executed by `_connect`, is the
`connectFail` lifecycle step (the handle assignment is skipped). -/
lemma connect_fail_matches_step (c : Connection) (d : Driver) (log : List Submission)
    (e : DriverErr)
    (hd : d.connectRes c._database c._timeout c._isolation_level
        c._check_same_thread c._kwargs = Except.error e) :
    ((c._connect d log).1).2 = stepConn c Event.connectFail := by
  simp [Connection._connect, Connection._execute, hd, stepConn]

/-- A successful dispatched close from the open state, as executed by
`close`, is the `closeOk` lifecycle step. -/
lemma close_ok_matches_step (c : Connection) (d : Driver) (log : List Submission)
    (h : Handle) (hc : c._conn = some h) (hd : d.closeRes h = Except.ok ()) :
    ((c.close d log).1).2 = stepConn c Event.closeOk := by
  simp [Connection.close, Connection._execute, hc, hd, stepConn]

/-- A failed dispatched close from the open state, as executed by `close`,
is the `closeFail` lifecycle step (the `self._conn = None` assignment is
skipped). -/
lemma close_fail_matches_step (c : Connection) (d : Driver) (log : List Submission)
    (h : Handle) (e : DriverErr) (hc : c._conn = some h)
    (hd : d.closeRes h = Except.error e) :
    ((c.close d log).1).2 = stepConn c Event.closeFail := by
  simp [Connection.close, Connection._execute, hc, hd, stepConn]

/-- Claim C1: the claim says `executescript(sql_script)` binds the script
to the handle's blocking `executescript` operation, submits it, and
returns a Dual-Mode Result Wrapper to the caller without suspending.  On
the code, `executescript` is a generator function: at an open connection,
the call itself submits nothing and returns a generator object, not a
wrapper; awaiting the generator performs the submission, suspends on the
future, and only then builds the wrapper — around the already-resolved
raw cursor instead of a suspension handle. -/
theorem executescript_generator_divergence :
    cOpen.executescript "CREATE TABLE t(x);" []
        = ((⟨cOpen, "CREATE TABLE t(x);"⟩, cOpen), [])
    ∧ (ExecutescriptGen.awaited ⟨cOpen, "CREATE TABLE t(x);"⟩ dSample []).2
        = [Submission.executescript 1 "CREATE TABLE t(x);"]
    ∧ ((ExecutescriptGen.awaited ⟨cOpen, "CREATE TABLE t(x);"⟩ dSample []).1).1
        = Except.ok (⟨13, cOpen._create_cursor⟩ : ResolvedCursorContext) :=
  ⟨rfl, rfl, rfl⟩

/-- Claim C2 counterexample: at the open connection `cOpen` and a driver
whose blocking close raises, the claim's "regardless of whether that
operation succeeds or raises, the proxy's handle reference is cleared and
the connection's state becomes closed" is false: the failure propagates,
the handle reference is still `some 1`, and `closed` is still false. -/
theorem close_failure_keeps_handle :
    (cOpen.close dBadClose []).1 = (Except.error (PyErr.driver "close failed"), cOpen)
    ∧ cOpen._conn = some 1
    ∧ Connection.closed (((cOpen.close dBadClose []).1).2) = false :=
  ⟨rfl, rfl, rfl⟩

/-- Claim C2 (amended): `close()` is a no-op returning immediately when
the connection is already closed/unconnected; otherwise it submits the
blocking close operation; when that operation succeeds the handle
reference is cleared and the state becomes closed, and when it raises the
failure propagates and the handle reference is left unchanged (the
connection stays open). -/
theorem close_transitions (c : Connection) (d : Driver) (log : List Submission) :
    (c._conn = none → c.close d log = ((Except.ok (), c), log))
    ∧ (∀ h : Handle, c._conn = some h →
        (c.close d log).2 = log ++ [Submission.close h]
        ∧ (d.closeRes h = Except.ok () →
            (c.close d log).1 = (Except.ok (), { c with _conn := none }))
        ∧ (∀ e : DriverErr, d.closeRes h = Except.error e →
            (c.close d log).1 = (Except.error (PyErr.driver e), c))) := by
  constructor
  · intro hc
    simp [Connection.close, hc]
  · intro h hc
    refine ⟨?_, ?_, ?_⟩
    · cases hr : d.closeRes h <;>
        simp [Connection.close, Connection._execute, hc, hr]
    · intro hr
      simp [Connection.close, Connection._execute, hc, hr]
    · intro e hr
      simp [Connection.close, Connection._execute, hc, hr]

/-- Claim C2 witness: a successful close of `cOpen` clears the handle. -/
theorem close_transitions_witness :
    (cOpen.close dSample []).1 = (Except.ok (), { cOpen with _conn := none }) :=
  ((close_transitions cOpen dSample []).2 1 rfl).2.1 rfl

/-- Claim C3: at every point in the lifecycle (i.e. after any sequence of
connect/close outcomes starting from a freshly constructed connection),
`closed` is true iff the underlying handle reference is null, and equals
the specification's "no successful connect has occurred since
construction or since the last completed close". -/
theorem closed_iff_null_handle : ∀ (db : String) (lp : Nat) (ex : Option Nat)
    (tmo : Nat) (ec : Bool) (iso : String) (kw : Kwargs) (t : List Event),
    (Connection.closed (runTrace (initConn db lp ex tmo ec iso kw) t) = true
      ↔ (runTrace (initConn db lp ex tmo ec iso kw) t)._conn = none)
    ∧ Connection.closed (runTrace (initConn db lp ex tmo ec iso kw) t)
        = closedSpec t := by
  intro db lp ex tmo ec iso kw t
  refine ⟨closed_eq_none_iff _, ?_⟩
  have h := runTrace_closed t (initConn db lp ex tmo ec iso kw)
  simpa [closedSpec, initConn, Connection.closed] using h

/-- Claim C4: evaluating the dispatched operations at a closed connection
(`_conn = None`).  `execute`, `executemany`, `cursor` and the delegated
`commit` all raise the null-handle `AttributeError` synchronously with
zero pool submissions, as the claim says; but `executescript` — also
listed by the claim — raises nothing at the call site: being a generator
function, the call returns a generator object (still with zero
submissions), and the fault only surfaces when the generator is
awaited. -/
theorem closed_dispatch_null_handle_fault :
    ((cClosed.execute dSample "SELECT 1" none []).1).1
        = Except.error (PyErr.attributeError "NoneType object has no attribute execute")
    ∧ (cClosed.execute dSample "SELECT 1" none []).2 = []
    ∧ ((cClosed.executemany dSample "SELECT 1" [] []).1).1
        = Except.error (PyErr.attributeError "NoneType object has no attribute executemany")
    ∧ (cClosed.executemany dSample "SELECT 1" [] []).2 = []
    ∧ ((cClosed.cursor dSample []).1).1
        = Except.error (PyErr.attributeError "NoneType object has no attribute cursor")
    ∧ (cClosed.cursor dSample []).2 = []
    ∧ ((cClosed.delegated "commit" (Except.ok ()) []).1).1
        = Except.error (PyErr.attributeError "NoneType object has no attribute commit")
    ∧ (cClosed.delegated "commit" (Except.ok ()) []).2 = []
    ∧ cClosed.executescript "SELECT 1" []
        = ((⟨cClosed, "SELECT 1"⟩, cClosed), [])
    ∧ ((ExecutescriptGen.awaited ⟨cClosed, "SELECT 1"⟩ dSample []).1).1
        = Except.error (PyErr.attributeError "NoneType object has no attribute executescript") :=
  ⟨rfl, rfl, rfl, rfl, rfl, rfl, rfl, rfl, rfl, rfl⟩

/-- Claim C5: for every Dual-Mode Result Wrapper over a given underlying
operation outcome, the value produced by suspend-mode consumption equals
the value produced by scoped-mode entry, and a wrapper consumed through
one mode cannot be re-consumed through the other. -/
theorem dual_mode_single_resolution : ∀ (α β : Type)
    (w : _LazyloadContextManager (Except DriverErr α) α β),
    (consumeByAwait w ConsumeState.fresh).1 = (consumeByScope w ConsumeState.fresh).1
    ∧ (consumeByScope w (consumeByAwait w ConsumeState.fresh).2).1
        = Except.error (PyErr.valueError "wrapper already consumed")
    ∧ (consumeByAwait w (consumeByScope w ConsumeState.fresh).2).1
        = Except.error (PyErr.valueError "wrapper already consumed") := by
  intro α β w
  refine ⟨?_, rfl, rfl⟩
  cases h : w.coro <;>
    simp [consumeByAwait, consumeByScope, awaitWrapper, enterWrapper, h]

/-- Claim C6: for every wrapper consumed in scoped mode, release is
invoked at most once; and whenever scope entry produced a resource (the
underlying outcome was a success), release is invoked exactly once on
every exit path — in particular also when the scope body raises, since
the body is arbitrary here. -/
theorem scoped_exit_release : ∀ (α β γ : Type)
    (w : _LazyloadContextManager (Except DriverErr α) α β)
    (body : β → Except PyErr γ),
    (scopedRun w body).2 ≤ 1
    ∧ (∀ a : α, w.coro = Except.ok a → (scopedRun w body).2 = 1) := by
  intro α β γ w body
  constructor
  · cases h : enterWrapper w with
    | error e => simp [scopedRun, h]
    | ok res => cases hb : body res <;> simp [scopedRun, h, hb]
  · intro a ha
    have h : enterWrapper w = Except.ok (w.trans a) := by
      simp [enterWrapper, ha]
    cases hb : body (w.trans a) <;> simp [scopedRun, h, hb]

/-- Claim C6 witness: on a wrapper over a resolved cursor, with a scope
body that raises, release is still invoked exactly once. -/
theorem scoped_exit_release_witness :
    (scopedRun wSample bodyRaise).2 ≤ 1 ∧ (scopedRun wSample bodyRaise).2 = 1 :=
  ⟨(scoped_exit_release RawCursor Cursor Nat wSample bodyRaise).1,
    (scoped_exit_release RawCursor Cursor Nat wSample bodyRaise).2 11 rfl⟩

/-- Claim C7: for an unconnected connection, `_connect` submits the
blocking open operation carrying the resource locator, timeout,
isolation level and driver options; on success the connection transitions
to open (the handle is stored); on failure the failure propagates and the
handle reference stays null. -/
theorem connect_state_transition (c : Connection) (d : Driver)
    (log : List Submission) (hc : c._conn = none) :
    (c._connect d log).2
        = log ++ [Submission.connect c._database c._timeout c._isolation_level
            c._check_same_thread c._kwargs]
    ∧ (∀ h : Handle,
        d.connectRes c._database c._timeout c._isolation_level
            c._check_same_thread c._kwargs = Except.ok h →
        (c._connect d log).1 = (Except.ok (), { c with _conn := some h }))
    ∧ (∀ e : DriverErr,
        d.connectRes c._database c._timeout c._isolation_level
            c._check_same_thread c._kwargs = Except.error e →
        (c._connect d log).1 = (Except.error (PyErr.driver e), c)
        ∧ (((c._connect d log).1).2)._conn = none) := by
  refine ⟨?_, ?_, ?_⟩
  · cases hr : d.connectRes c._database c._timeout c._isolation_level
        c._check_same_thread c._kwargs <;>
      simp [Connection._connect, Connection._execute, hr]
  · intro h hr
    simp [Connection._connect, Connection._execute, hr]
  · intro e hr
    constructor
    · simp [Connection._connect, Connection._execute, hr]
    · simp [Connection._connect, Connection._execute, hr, hc]

/-- Claim C7 witness: connecting the unconnected `cClosed` under the
sample driver succeeds and stores handle `1`. -/
theorem connect_state_transition_witness :
    (cClosed._connect dSample []).1
      = (Except.ok (), { cClosed with _conn := some 1 }) :=
  (connect_state_transition cClosed dSample [] rfl).2.1 1 rfl

/-- Claim C8: on an open connection, `execute(sql)` with the parameters
argument omitted (`None`) is exactly `execute(sql, [])`; the returned
wrapper is built from the future of the bound statement with
`_create_cursor` as finalizing transform, and that transform constructs,
from any resolved raw cursor, the Cursor Proxy capturing this connection
and its diagnostics flag. -/
theorem execute_default_parameters (c : Connection) (d : Driver) (sql : String)
    (log : List Submission) (h : Handle) (hc : c._conn = some h) :
    c.execute d sql none log = c.execute d sql (some []) log
    ∧ ((c.execute d sql none log).1).1
        = Except.ok (c._create_context_cursor (d.executeRes h sql []))
    ∧ (∀ rc : RawCursor, Connection._create_cursor c rc = Cursor.mk rc c c._echo) := by
  refine ⟨rfl, ?_, fun rc => rfl⟩
  simp [Connection.execute, Connection._execute, hc]

/-- Claim C8 witness: at the open `cOpen`, `execute` with omitted
parameters yields the wrapper over the bound statement's future. -/
theorem execute_default_parameters_witness :
    ((cOpen.execute dSample "SELECT 1" none []).1).1
      = Except.ok (cOpen._create_context_cursor (dSample.executeRes 1 "SELECT 1" [])) :=
  (execute_default_parameters cOpen dSample "SELECT 1" [] 1 rfl).2.1

/-- Claim C9: constructing a `Connection` with the thread-affinity flag
non-false raises `ValueError` immediately, with no connection attempt and
no pool submission (the log is untouched); construction with the flag
false succeeds and stores the fields with a null handle. -/
theorem check_same_thread_construction_fault : ∀ (db : String) (lp : Nat)
    (ex : Option Nat) (tmo : Nat) (ec : Bool) (iso : String) (kw : Kwargs)
    (log : List Submission),
    Connection.init db lp ex tmo ec true iso kw log
        = (Except.error (PyErr.valueError "check_same_thread not is False"), log)
    ∧ Connection.init db lp ex tmo ec false iso kw log
        = (Except.ok ⟨db, lp, ex, tmo, ec, false, iso, kw, none⟩, log) := by
  intro db lp ex tmo ec iso kw log
  exact ⟨rfl, rfl⟩

/-- Claim C10: `execute`, `executemany` and `cursor` leave the Connection
Proxy entirely unchanged; `_execute` only submits the bound operation and
returns its future, touching no connection state; and `_connect` and
`close` can change nothing but the `_conn` handle reference (every other
field is preserved). -/
theorem dispatch_frame_effects : ∀ (c : Connection) (d : Driver) (sql : String)
    (p : Option (List Param)) (seq : List (List Param)) (log : List Submission)
    (op : BoundOp Nat),
    ((c.execute d sql p log).1).2 = c
    ∧ ((c.executemany d sql seq log).1).2 = c
    ∧ ((c.cursor d log).1).2 = c
    ∧ Connection._execute op log = (op.run, log ++ [op.sub])
    ∧ (∃ x, (((c._connect d log).1).2) = { c with _conn := x })
    ∧ (∃ x, (((c.close d log).1).2) = { c with _conn := x }) := by
  intro c d sql p seq log op
  obtain ⟨db, lp, ex, tmo, ec, cst, iso, kw, cn⟩ := c
  refine ⟨?_, ?_, ?_, rfl, ?_, ?_⟩
  · cases cn <;> rfl
  · cases cn <;> rfl
  · cases cn <;> rfl
  · cases hr : Driver.connectRes d db tmo iso cst kw with
    | error e =>
        exact ⟨cn, by simp [Connection._connect, Connection._execute, hr]⟩
    | ok h =>
        exact ⟨some h, by simp [Connection._connect, Connection._execute, hr]⟩
  · cases cn with
    | none => exact ⟨none, rfl⟩
    | some h =>
        cases hr : d.closeRes h with
        | error e =>
            exact ⟨some h, by simp [Connection.close, Connection._execute, hr]⟩
        | ok u =>
            exact ⟨none, by simp [Connection.close, Connection._execute, hr]⟩

end Aiosqlite3
